import Mathlib

/-!
Verification development for the SvelteKit Ollama chat relay.

The repository has three parts:
* a model-listing relay (`GET /api/ollama/tags`),
* a streaming chat relay (`POST /api/ollama/chat`), and
* a browser-side stream assembler (`handleSubmit` in the chat page component)
  that reads the relayed NDJSON stream and assembles the assistant's message.

This file gives a shallow embedding of those parts.  JavaScript values that
flow through `JSON.parse` / property access are modelled by the `Json`
inductive below, together with JavaScript truthiness and string coercion.
Network effects are modelled by passing the outcome of the single upstream
`fetch` as an explicit parameter and returning the list of upstream requests
that the handler issued.
-/

namespace OllamaChat

/-- A JSON value, as produced by `JSON.parse`.  Numbers are modelled as
integers: no claim involves non-integer numerics, and the parser below
rejects fraction/exponent forms rather than approximating them. -/
inductive Json where
  | null
  | bool (b : Bool)
  | num (n : Int)
  | str (s : String)
  | arr (elems : List Json)
  | obj (fields : List (String × Json))
deriving Inhabited

/-- The `{` character, kept as a named constant. -/
def lbraceChar : Char := Char.ofNat 123

/-- The `}` character, kept as a named constant. -/
def rbraceChar : Char := Char.ofNat 125

/-- JSON insignificant whitespace (space, tab, line feed, carriage return). -/
def isJsonWs (c : Char) : Bool :=
  c == ' ' || c == '\t' || c == '\n' || c == '\r'

/-- Drop leading JSON whitespace. -/
def skipWs : List Char → List Char
  | [] => []
  | c :: cs => if isJsonWs c then skipWs cs else c :: cs

/-- Value of a hexadecimal digit. -/
def hexDigitVal (c : Char) : Option Nat :=
  if '0' ≤ c ∧ c ≤ '9' then some (c.toNat - 48)
  else if 'a' ≤ c ∧ c ≤ 'f' then some (c.toNat - 87)
  else if 'A' ≤ c ∧ c ≤ 'F' then some (c.toNat - 55)
  else none

/-- Translation of a JSON string escape character (the character after a
backslash), excluding the `\uXXXX` form which is handled separately. -/
def escapeChar (e : Char) : Option Char :=
  if e = '"' then some '"'
  else if e = '\\' then some '\\'
  else if e = '/' then some '/'
  else if e = 'n' then some '\n'
  else if e = 't' then some '\t'
  else if e = 'r' then some '\r'
  else if e = 'b' then some (Char.ofNat 8)
  else if e = 'f' then some (Char.ofNat 12)
  else none

/-- Parse the body of a JSON string literal (after the opening quote),
returning the decoded characters and the input after the closing quote.
Raw control characters below 0x20 are rejected, as in `JSON.parse`. -/
def parseStringBody : Nat → List Char → Option (List Char × List Char)
  | 0, _ => none
  | _, [] => none
  | fuel + 1, c :: cs =>
    if c = '"' then some ([], cs)
    else if c = '\\' then
      match cs with
      | [] => none
      | e :: cs' =>
        if e = 'u' then
          match cs' with
          | h1 :: h2 :: h3 :: h4 :: cs'' =>
            match hexDigitVal h1, hexDigitVal h2, hexDigitVal h3, hexDigitVal h4 with
            | some a, some b, some c3, some d =>
              (parseStringBody fuel cs'').map
                (fun r => (Char.ofNat (a * 4096 + b * 256 + c3 * 16 + d) :: r.1, r.2))
            | _, _, _, _ => none
          | _ => none
        else
          match escapeChar e with
          | some ch => (parseStringBody fuel cs').map (fun r => (ch :: r.1, r.2))
          | none => none
    else if c.toNat < 32 then none
    else (parseStringBody fuel cs).map (fun r => (c :: r.1, r.2))

/-- Decimal digit test. -/
def isDigitChar (c : Char) : Bool := '0' ≤ c && c ≤ '9'

/-- Take a maximal run of decimal digits. -/
def takeDigits : List Char → List Char × List Char
  | [] => ([], [])
  | c :: cs =>
    if isDigitChar c then
      let r := takeDigits cs
      (c :: r.1, r.2)
    else ([], c :: cs)

/-- Numeric value of a digit run. -/
def digitsToNat (ds : List Char) : Nat :=
  ds.foldl (fun n c => n * 10 + (c.toNat - 48)) 0

/-- Parse the integer part of a JSON number: `0` or a nonzero digit followed
by further digits (JSON forbids redundant leading zeros). -/
def parseIntPart : List Char → Option (Nat × List Char)
  | [] => none
  | c :: rest =>
    if c = '0' then some (0, rest)
    else if isDigitChar c then
      let r := takeDigits rest
      some (digitsToNat (c :: r.1), r.2)
    else none

/-- After an integer part, a fraction or exponent would start with `.`, `e`
or `E`; such numbers are outside the integer fragment modelled here. -/
def noFracExp : List Char → Bool
  | [] => true
  | c :: _ => !(c == '.' || c == 'e' || c == 'E')

mutual

/-- Fuel-indexed recursive-descent parser for a JSON value.  Returns the
parsed value and the unconsumed input. -/
def parseValue : Nat → List Char → Option (Json × List Char)
  | 0, _ => none
  | fuel + 1, cs =>
    match skipWs cs with
    | [] => none
    | c :: rest =>
      if c = 'n' then
        match rest with
        | 'u' :: 'l' :: 'l' :: r => some (.null, r)
        | _ => none
      else if c = 't' then
        match rest with
        | 'r' :: 'u' :: 'e' :: r => some (.bool true, r)
        | _ => none
      else if c = 'f' then
        match rest with
        | 'a' :: 'l' :: 's' :: 'e' :: r => some (.bool false, r)
        | _ => none
      else if c = '"' then
        (parseStringBody (rest.length + 1) rest).map
          (fun r => (.str (String.mk r.1), r.2))
      else if c = '[' then
        match skipWs rest with
        | [] => none
        | c2 :: r2 =>
          if c2 = ']' then some (.arr [], r2)
          else (parseElems fuel (c2 :: r2)).map (fun r => (.arr r.1, r.2))
      else if c = lbraceChar then
        match skipWs rest with
        | [] => none
        | c2 :: r2 =>
          if c2 = rbraceChar then some (.obj [], r2)
          else (parseMembers fuel (c2 :: r2)).map (fun r => (.obj r.1, r.2))
      else if c = '-' then
        (parseIntPart rest).bind
          (fun r => if noFracExp r.2 then some (.num (-(r.1 : Int)), r.2) else none)
      else if isDigitChar c then
        (parseIntPart (c :: rest)).bind
          (fun r => if noFracExp r.2 then some (.num (r.1 : Int), r.2) else none)
      else none

/-- Parse the elements of a non-empty JSON array up to and including the
closing bracket. -/
def parseElems : Nat → List Char → Option (List Json × List Char)
  | 0, _ => none
  | fuel + 1, cs =>
    (parseValue fuel cs).bind
      (fun r =>
        match skipWs r.2 with
        | [] => none
        | c :: rest =>
          if c = ',' then (parseElems fuel rest).map (fun q => (r.1 :: q.1, q.2))
          else if c = ']' then some ([r.1], rest)
          else none)

/-- Parse the members of a non-empty JSON object up to and including the
closing brace. -/
def parseMembers : Nat → List Char → Option (List (String × Json) × List Char)
  | 0, _ => none
  | fuel + 1, cs =>
    match skipWs cs with
    | [] => none
    | c :: rest =>
      if c = '"' then
        (parseStringBody (rest.length + 1) rest).bind
          (fun ks =>
            match skipWs ks.2 with
            | [] => none
            | c2 :: r2 =>
              if c2 = ':' then
                (parseValue fuel r2).bind
                  (fun vr =>
                    match skipWs vr.2 with
                    | [] => none
                    | c3 :: r4 =>
                      if c3 = ',' then
                        (parseMembers fuel r4).map
                          (fun q => ((String.mk ks.1, vr.1) :: q.1, q.2))
                      else if c3 = rbraceChar then
                        some ([(String.mk ks.1, vr.1)], r4)
                      else none)
              else none)
      else none

end

/-- Model of `JSON.parse`: parse one JSON value and require that only
whitespace remains.  `none` models a thrown `SyntaxError`. -/
def jsonParse (s : String) : Option Json :=
  match parseValue (2 * s.data.length + 2) s.data with
  | some (v, rest) => if (skipWs rest).isEmpty then some v else none
  | none => none

/-! ## JavaScript value semantics -/

/-- JavaScript truthiness of a JSON value: `null`, `false`, `0` and `""` are
falsy; every array and object is truthy. -/
def jsTruthy : Json → Bool
  | .null => false
  | .bool b => b
  | .num n => n != 0
  | .str s => s != ""
  | .arr _ => true
  | .obj _ => true

/-- Truthiness of a possibly-`undefined` value (`none` models `undefined`,
as produced by accessing an absent property). -/
def jsTruthyOpt : Option Json → Bool
  | none => false
  | some v => jsTruthy v

/-- JavaScript property access `v[k]` on a parsed JSON value.  On objects the
last binding wins, as with duplicate keys in `JSON.parse`; on every other
value the named property is absent (`undefined`).  (`null[k]` actually throws
in JavaScript, but the only such access in the client sits inside a
`try`/`catch` whose handler skips the line, which is also what the `none`
result leads to.) -/
def getField : Json → String → Option Json
  | .obj kvs, k => (kvs.reverse.find? (fun p => p.1 == k)).map (fun p => p.2)
  | _, _ => none

mutual

/-- JavaScript string coercion `String(v)`, as performed by `+=` when the
appended value is not already a string. -/
def jsToString : Json → String
  | .null => "null"
  | .bool true => "true"
  | .bool false => "false"
  | .num n => toString n
  | .str s => s
  | .arr xs => arrJoin xs
  | .obj _ => "[object Object]"

/-- `Array.prototype.toString`: elements joined with commas, `null`
rendering as the empty string. -/
def arrJoin : List Json → String
  | [] => ""
  | [.null] => ""
  | [x] => jsToString x
  | .null :: x :: xs => "," ++ arrJoin (x :: xs)
  | x :: y :: xs => jsToString x ++ "," ++ arrJoin (y :: xs)

end

/-! ## Client stream assembler (`handleSubmit` in the chat page) -/

/-- Chat participant role. -/
inductive Role where
  | user
  | assistant
  | system
deriving DecidableEq, Repr

/-- A chat message, as kept in the client's `messages` array. -/
structure ChatMessage where
  role : Role
  content : String
deriving DecidableEq, Repr

/-- The component state read and written by `handleSubmit`. -/
structure ClientState where
  messages : List ChatMessage
  userInput : String
  selectedModel : String
  errorMessage : String
  isLoading : Bool
deriving DecidableEq, Repr

/-- The whitespace class used by JavaScript's `String.prototype.trim`
(restricted to the control/ASCII space characters that can occur here). -/
def jsWsChar (c : Char) : Bool :=
  c == ' ' || c == '\t' || c == '\n' || c == '\r' ||
    c == Char.ofNat 11 || c == Char.ofNat 12

/-- JavaScript `s.trim()`: strip leading and trailing whitespace. -/
def jsTrim (s : String) : String :=
  String.mk (((s.data.dropWhile jsWsChar).reverse.dropWhile jsWsChar).reverse)

/-- Worker for `jsSplit`: `acc` holds the current piece, reversed. -/
def jsSplitGo (sep : Char) : List Char → List Char → List String
  | acc, [] => [String.mk acc.reverse]
  | acc, c :: cs =>
    if c = sep then String.mk acc.reverse :: jsSplitGo sep [] cs
    else jsSplitGo sep (c :: acc) cs

/-- JavaScript `s.split(sep)` for a one-character separator. -/
def jsSplit (sep : Char) (s : String) : List String :=
  jsSplitGo sep [] s.data

/-- Per-chunk line extraction:
`chunk.split('\n').filter(line => line.trim() !== '')`. -/
def chunkLines (chunk : String) : List String :=
  (jsSplit '\n' chunk).filter (fun l => jsTrim l != "")

/-- The content carried by one stream line, if any: `JSON.parse` the line
(skipping it on a parse error), then require `parsedLine.message` and
`parsedLine.message.content` to be truthy; the appended text is the string
coercion of the content value. -/
def extractContent (line : String) : Option String :=
  match jsonParse line with
  | none => none
  | some v =>
    match getField v "message" with
    | none => none
    | some m =>
      if jsTruthy m then
        match getField m "content" with
        | none => none
        | some c => if jsTruthy c then some (jsToString c) else none
      else none

/-- `messages.map((msg, index) => index === messages.length - 1 ?
{...msg, content: acc} : msg)`: replace the content of the last message. -/
def updateLast (msgs : List ChatMessage) (c : String) : List ChatMessage :=
  msgs.mapIdx (fun i msg => if i = msgs.length - 1 then { msg with content := c } else msg)

/-- Process one stream line against the accumulator and message list. -/
def processLine (st : String × List ChatMessage) (line : String) :
    String × List ChatMessage :=
  match extractContent line with
  | none => st
  | some c =>
    let acc := st.1 ++ c
    (acc, updateLast st.2 acc)

/-- Process one decoded chunk: split into lines and process each. -/
def processChunk (st : String × List ChatMessage) (chunk : String) :
    String × List ChatMessage :=
  (chunkLines chunk).foldl processLine st

/-- How the relayed stream ends: normal closure, or a read rejection. -/
inductive StreamEnd where
  | closed
  | failed (msg : String)
deriving DecidableEq, Repr

/-- Outcome of the client's `fetch('/api/ollama/chat', ...)`: either the
promise rejects, or a response arrives with the given `ok` flag, body
presence, status, parsed `error` field of a non-ok body, decoded stream
chunks, and stream ending. -/
inductive ChatOutcome where
  | reject (msg : String)
  | respond (ok : Bool) (hasBody : Bool) (status : Nat) (errField : Option String)
      (chunks : List String) (ending : StreamEnd)
deriving DecidableEq, Repr

/-- `errorResult.error || `Chat API error: ${status}``. -/
def errorResultMessage (errField : Option String) (status : Nat) : String :=
  match errField with
  | some e => if e = "" then s!"Chat API error: {status}" else e
  | none => s!"Chat API error: {status}"

/-- The catch-handler's placeholder test:
`messages[messages.length - 1]?.role === 'assistant' &&
 messages[messages.length - 1]?.content === '...'`. -/
def lastIsPlaceholder (msgs : List ChatMessage) : Bool :=
  match msgs.getLast? with
  | some m => m.role == Role.assistant && m.content == "..."
  | none => false

/-- The catch handler: set the visible error message and drop the trailing
placeholder assistant message if it is still untouched. -/
def applyCatch (s : ClientState) (errMsg : String) : ClientState :=
  { s with
    errorMessage := "Error sending message: " ++ errMsg,
    messages := if lastIsPlaceholder s.messages then s.messages.dropLast else s.messages }

/-- `handleSubmit`: validate the input, optimistically append the user turn,
issue the chat request, and assemble the streamed assistant message.
Returns the new component state and whether a network call was made. -/
def handleSubmit (s : ClientState) (net : ChatOutcome) : ClientState × Bool :=
  if jsTrim s.userInput = "" ∨ s.selectedModel = "" then
    ({ s with errorMessage := "Please enter a message and select a model." }, false)
  else
    let msgs1 := s.messages ++ [⟨Role.user, s.userInput⟩]
    let base : ClientState :=
      { messages := msgs1, userInput := "", selectedModel := s.selectedModel,
        errorMessage := "", isLoading := true }
    let afterTry : ClientState :=
      match net with
      | .reject m => applyCatch base m
      | .respond ok hasBody status errField chunks ending =>
        if ok = false ∨ hasBody = false then
          applyCatch base (errorResultMessage errField status)
        else
          let withPh := msgs1 ++ [⟨Role.assistant, "..."⟩]
          let st := chunks.foldl processChunk ("", withPh)
          match ending with
          | .closed => { base with messages := st.2 }
          | .failed m => applyCatch { base with messages := st.2 } m
    ({ afterTry with isLoading := false }, true)

/-! ## Relay handlers (`/api/ollama/tags` GET and `/api/ollama/chat` POST) -/

/-- Outcome of the single upstream `fetch` a relay handler may perform:
either the promise rejects (with the `cause.code` of the rejection error,
when present), or a response arrives.  For the tags endpoint `jsonBody` is
the result of `response.json()` (`none` models a body that fails to parse);
for the chat endpoint `contentType` is the upstream `Content-Type` header. -/
inductive UpOutcome where
  | reject (causeCode : Option String)
  | respond (ok : Bool) (status : Nat) (text : String) (jsonBody : Option Json)
      (contentType : Option String)


/-- A response produced by a relay handler: a JSON error envelope, a plain
JSON body, or a streamed passthrough body. -/
inductive RelayResponse where
  | errorEnvelope (status : Nat) (error : String)
  | jsonBody (status : Nat) (v : Json)
  | streamResponse (status : Nat) (contentType : String)


/-- Status code of a relay response. -/
def respStatus : RelayResponse → Nat
  | .errorEnvelope st _ => st
  | .jsonBody st _ => st
  | .streamResponse st _ => st

/-- `error` field of a relay response, when the response is an envelope. -/
def respError : RelayResponse → Option String
  | .errorEnvelope _ e => some e
  | _ => none

/-- The configuration-missing envelope text shared by both handlers. -/
def configErrorText : String :=
  "Application is not configured to connect to Ollama service."

/-- `GET /api/ollama/tags`.  `cfg` is `OLLAMA_API_URL` (`none` when the
environment variable is undefined); `up` is the outcome of the one upstream
fetch the handler may issue.  The second component lists the upstream URLs
actually fetched. -/
def tagsGET (cfg : Option String) (up : UpOutcome) : RelayResponse × List String :=
  match cfg with
  | none => (.errorEnvelope 500 configErrorText, [])
  | some u =>
    if u = "" then (.errorEnvelope 500 configErrorText, [])
    else
      let url := u ++ "/api/tags"
      match up with
      | .reject causeCode =>
        if causeCode = some "ECONNREFUSED" then
          (.errorEnvelope 503
            (s!"Failed to connect to Ollama service at {u}. " ++
              "Ensure the service is running and accessible."), [url])
        else
          (.errorEnvelope 500
            "An unexpected error occurred while trying to connect to the Ollama service.",
            [url])
      | .respond ok status text jsonBody _ =>
        if ok then
          match jsonBody with
          | some v => (.jsonBody 200 v, [url])
          | none =>
            (.errorEnvelope 500
              "An unexpected error occurred while trying to connect to the Ollama service.",
              [url])
        else (.errorEnvelope status s!"Ollama service error: {status} - {text}", [url])

/-- The body the chat relay sends upstream:
`JSON.stringify({ model, messages, stream: true })`. -/
structure UpstreamRequest where
  url : String
  model : Json
  messages : Json
  stream : Bool


/-- `POST /api/ollama/chat`.  `reqBody` is the result of `request.json()`
(`none` models a body that is not valid JSON, which throws a `SyntaxError`
caught by the handler); `up` is the outcome of the one upstream fetch the
handler may issue.  The second component lists the upstream requests
actually issued.

When the parsed body is the JSON value `null`, the destructuring
`const { model, messages } = requestBody` throws a `TypeError`; the catch
handler matches neither `ECONNREFUSED` nor `SyntaxError`, so that body gets
the generic 500 envelope before any upstream call.  Destructuring any other
primitive or array body does not throw: the fields are simply `undefined`. -/
def chatPOST (cfg : Option String) (reqBody : Option Json) (up : UpOutcome) :
    RelayResponse × List UpstreamRequest :=
  match cfg with
  | none => (.errorEnvelope 500 configErrorText, [])
  | some u =>
    if u = "" then (.errorEnvelope 500 configErrorText, [])
    else
      match reqBody with
      | none => (.errorEnvelope 400 "Invalid JSON in request body.", [])
      | some .null =>
        (.errorEnvelope 500 "An unexpected error occurred in the chat API.", [])
      | some v =>
        match getField v "model", getField v "messages" with
        | some mv, some msv =>
          if jsTruthy mv = false ∨ jsTruthy msv = false then
            (.errorEnvelope 400 "Missing model or messages in request body.", [])
          else
            let req : UpstreamRequest := ⟨u ++ "/api/chat", mv, msv, true⟩
            match up with
            | .reject causeCode =>
              if causeCode = some "ECONNREFUSED" then
                (.errorEnvelope 503
                  (s!"Failed to connect to Ollama service at {u}. " ++
                    "Ensure the service is running and accessible."), [req])
              else
                (.errorEnvelope 500 "An unexpected error occurred in the chat API.", [req])
            | .respond ok status text _ contentType =>
              if ok then
                let ct := match contentType with
                  | some c => if c = "" then "application/x-ndjson" else c
                  | none => "application/x-ndjson"
                (.streamResponse 200 ct, [req])
              else
                (.errorEnvelope status s!"Ollama service error: {status} - {text}", [req])
        | _, _ =>
          (.errorEnvelope 400 "Missing model or messages in request body.", [])

/-- Concatenation `c1 ++ c2 ++ ... ++ cn` of a list of strings. -/
def concatAll : List String → String
  | [] => ""
  | c :: cs => c ++ concatAll cs

/-! ## General helper lemmas -/

theorem str_append_ne_empty_left (a b : String) (ha : a ≠ "") : a ++ b ≠ "" := by
  intro h
  apply ha
  have hd : a.data ++ b.data = [] := by
    have := congrArg String.data h
    simpa [String.data_append] using this
  exact String.ext (List.append_eq_nil.mp hd).1

/-- An indexed map whose function is the identity below the list's length
leaves the list unchanged. -/
theorem mapIdx_id_of_lt {α : Type} (f : Nat → α → α) (l : List α)
    (h : ∀ (i : Nat) (a : α), i < l.length → f i a = a) : l.mapIdx f = l := by
  apply List.ext_get (by simp [List.length_mapIdx])
  intro i h1 h2
  rw [List.get_mapIdx l f i h2]
  exact h i _ h2

/-- Replacing the last message's content, on a list with an exposed last
element. -/
theorem updateLast_append_one (l : List ChatMessage) (m : ChatMessage) (c : String) :
    updateLast (l ++ [m]) c = l ++ [{ m with content := c }] := by
  unfold updateLast
  rw [List.mapIdx_append_one]
  have hlen : (l ++ [m]).length - 1 = l.length := by simp
  congr 1
  · apply mapIdx_id_of_lt
    intro i a hi
    rw [if_neg (by omega)]
  · rw [hlen, if_pos rfl]

/-- Lines that yield no content leave the processing state unchanged. -/
theorem foldl_processLine_none (lines : List String)
    (h : ∀ l ∈ lines, extractContent l = none) (st : String × List ChatMessage) :
    lines.foldl processLine st = st := by
  induction lines with
  | nil => rfl
  | cons l rest ih =>
    have hl : extractContent l = none := h l (by simp)
    have : processLine st l = st := by simp [processLine, hl]
    rw [List.foldl_cons, this, ih (fun q hq => h q (by simp [hq]))]

/-- Folding the line processor over fragment lines, each carrying content,
appends the concatenated contents to the accumulator and rewrites the last
message's content to the new accumulator (when at least one line arrived). -/
theorem foldl_processLine_extracts (frags : List (String × String))
    (h : ∀ p ∈ frags, extractContent p.1 = some p.2) (acc : String)
    (front : List ChatMessage) (r : Role) (x : String) :
    (frags.map Prod.fst).foldl processLine (acc, front ++ [⟨r, x⟩]) =
      (acc ++ concatAll (frags.map Prod.snd),
       front ++ [⟨r, if frags = [] then x
                     else acc ++ concatAll (frags.map Prod.snd)⟩]) := by
  induction frags generalizing acc x with
  | nil => simp [concatAll, String.append_empty]
  | cons p rest ih =>
    obtain ⟨l, c⟩ := p
    have hl : extractContent l = some c := h (l, c) (by simp)
    have hrest : ∀ q ∈ rest, extractContent q.1 = some q.2 :=
      fun q hq => h q (by simp [hq])
    have hstep : processLine (acc, front ++ [⟨r, x⟩]) l =
        (acc ++ c, front ++ [⟨r, acc ++ c⟩]) := by
      simp [processLine, hl, updateLast_append_one]
    rw [List.map_cons, List.foldl_cons, hstep, ih hrest]
    cases rest with
    | nil => simp [concatAll, String.append_empty]
    | cons q qs => simp [concatAll, String.append_assoc]

/-- Folding the chunk processor over a chunk list is folding the line
processor over the concatenation of each chunk's extracted lines. -/
theorem foldl_processChunk_eq (chunks : List String) (st : String × List ChatMessage) :
    chunks.foldl processChunk st =
      ((chunks.map chunkLines).flatten).foldl processLine st := by
  induction chunks generalizing st with
  | nil => rfl
  | cons ch rest ih =>
    rw [List.foldl_cons, List.map_cons, List.flatten_cons, List.foldl_append]
    exact ih (processChunk st ch)

/-! ## Theorems for the relay handlers -/

/-- **C2.** For every request body (in particular any body containing both a
`model` and a `messages` field, whether or not it also carries a `stream`
field of any value), the chat relay issues at most one upstream call, and
every upstream request it issues has `stream` set to `true`. -/
theorem claim2_at_most_one_call_stream_true
    (cfg : Option String) (reqBody : Option Json) (up : UpOutcome) :
    (chatPOST cfg reqBody up).2.length ≤ 1 ∧
      ∀ r ∈ (chatPOST cfg reqBody up).2, r.stream = true := by
  unfold chatPOST
  repeat' split
  all_goals exact ⟨by simp, by simp⟩

/-- **C3.** When `OLLAMA_API_URL` is unset, both relay handlers return the
`{ error }` envelope with status 500 and perform no upstream call. -/
theorem claim3_unset_config_500_no_call
    (reqBody : Option Json) (upTags upChat : UpOutcome) :
    tagsGET none upTags = (.errorEnvelope 500 configErrorText, []) ∧
      chatPOST none reqBody upChat = (.errorEnvelope 500 configErrorText, []) :=
  ⟨rfl, rfl⟩

/-- **C4 counterexample.** The claim says every rejected upstream fetch maps
to 503, but a rejection whose `cause.code` is not `ECONNREFUSED` (here
`EHOSTUNREACH`, i.e. an unreachable host) is mapped to 500 by the tags
handler. -/
theorem claim4_counterexample :
    (tagsGET (some "http://localhost:11434") (.reject (some "EHOSTUNREACH"))).1 =
      .errorEnvelope 500
        "An unexpected error occurred while trying to connect to the Ollama service." ∧
      (500 : Nat) ≠ 503 :=
  ⟨rfl, by decide⟩

/-- **C4 (amended).** When the upstream fetch rejects with an error whose
`cause.code` is `ECONNREFUSED`, both relay endpoints return status 503 with
a non-empty `error` field. -/
theorem claim4_connrefused_503 (u : String) (v mv msv : Json)
    (hu : u ≠ "")
    (hm : getField v "model" = some mv) (hmt : jsTruthy mv = true)
    (hs : getField v "messages" = some msv) (hst : jsTruthy msv = true) :
    (respStatus (tagsGET (some u) (.reject (some "ECONNREFUSED"))).1 = 503 ∧
      ∃ e, respError (tagsGET (some u) (.reject (some "ECONNREFUSED"))).1 = some e ∧
        e ≠ "") ∧
    (respStatus (chatPOST (some u) (some v) (.reject (some "ECONNREFUSED"))).1 = 503 ∧
      ∃ e, respError (chatPOST (some u) (some v) (.reject (some "ECONNREFUSED"))).1 = some e ∧
        e ≠ "") := by
  have hne : (s!"Failed to connect to Ollama service at {u}. " ++
      "Ensure the service is running and accessible.") ≠ "" :=
    str_append_ne_empty_left _ _ (str_append_ne_empty_left _ _
      (str_append_ne_empty_left _ _ (by decide)))
  constructor
  · simp only [tagsGET]
    rw [if_neg hu]
    exact ⟨rfl, _, rfl, hne⟩
  · cases v with
    | null => exact absurd hm (by simp [getField])
    | bool b => exact absurd hm (by simp [getField])
    | num n => exact absurd hm (by simp [getField])
    | str s2 => exact absurd hm (by simp [getField])
    | arr es => exact absurd hm (by simp [getField])
    | obj kvs =>
      simp only [chatPOST, hm, hs]
      rw [if_neg hu, if_neg (by simp [hmt, hst])]
      exact ⟨rfl, _, rfl, hne⟩

/-- **C4 witness.** -/
theorem claim4_connrefused_503_witness :
    respStatus (tagsGET (some "http://localhost:11434")
        (.reject (some "ECONNREFUSED"))).1 = 503 ∧
      respStatus (chatPOST (some "http://localhost:11434")
          (some (.obj [("model", .str "llama3"), ("messages", .arr [])]))
          (.reject (some "ECONNREFUSED"))).1 = 503 :=
  have h := claim4_connrefused_503 "http://localhost:11434"
    (.obj [("model", .str "llama3"), ("messages", .arr [])])
    (.str "llama3") (.arr [])
    (by decide) rfl rfl rfl rfl
  ⟨h.1.1, h.2.1⟩

/-- **C5 counterexample.** The valid-JSON request body `null` has no `model`
field (property access on it yields nothing), yet the relay answers 500, not
the claimed 400: destructuring `null` throws a `TypeError` that the catch
handler maps to the generic envelope.  No upstream call is made either
way. -/
theorem claim5_counterexample :
    getField .null "model" = none ∧
    chatPOST (some "http://localhost:11434") (some .null) (.reject none) =
      (.errorEnvelope 500 "An unexpected error occurred in the chat API.", []) ∧
    (500 : Nat) ≠ 400 :=
  ⟨rfl, rfl, by decide⟩

/-- **C5 (amended).** A chat request body lacking `model` or lacking
`messages` — other than the JSON body `null`, whose destructuring throws
and yields the generic 500 — gets a 400 envelope and no upstream call (the
relay being configured). -/
theorem claim5_missing_field_400 (u : String) (hu : u ≠ "") (v : Json) (up : UpOutcome)
    (hnull : v ≠ .null)
    (habs : getField v "model" = none ∨ getField v "messages" = none) :
    chatPOST (some u) (some v) up =
      (.errorEnvelope 400 "Missing model or messages in request body.", []) := by
  cases v with
  | null => exact absurd rfl hnull
  | bool b => simp [chatPOST, hu, getField]
  | num n => simp [chatPOST, hu, getField]
  | str s2 => simp [chatPOST, hu, getField]
  | arr es => simp [chatPOST, hu, getField]
  | obj kvs =>
    rcases habs with h | h <;>
      cases hm : getField (.obj kvs) "model" <;>
      cases hs : getField (.obj kvs) "messages" <;>
      simp_all [chatPOST, hu]

/-- **C5 witness.** -/
theorem claim5_missing_field_400_witness :
    chatPOST (some "http://localhost:11434")
        (some (.obj [("messages", .arr [])])) (.reject none) =
      (.errorEnvelope 400 "Missing model or messages in request body.", []) :=
  claim5_missing_field_400 "http://localhost:11434" (by decide)
    (.obj [("messages", .arr [])]) (.reject none)
    (fun h => Json.noConfusion h) (Or.inl rfl)

/-- **C9.** An empty `messages` array passes validation (the request is
forwarded upstream, so exactly one upstream call is made), while an empty
string `model`, though present, is rejected with 400 and no upstream
call. -/
theorem claim9_truthiness_validation (u : String) (hu : u ≠ "")
    (v : Json) (m : String) (up : UpOutcome) :
    (getField v "model" = some (.str m) → m ≠ "" →
      getField v "messages" = some (.arr []) →
      (chatPOST (some u) (some v) up).2.length = 1) ∧
    (getField v "model" = some (.str "") →
      chatPOST (some u) (some v) up =
        (.errorEnvelope 400 "Missing model or messages in request body.", [])) := by
  constructor
  · intro hm hme hs
    cases v with
    | null => exact absurd hm (by simp [getField])
    | bool b => exact absurd hm (by simp [getField])
    | num n => exact absurd hm (by simp [getField])
    | str s2 => exact absurd hm (by simp [getField])
    | arr es => exact absurd hm (by simp [getField])
    | obj kvs =>
      simp only [chatPOST, hm, hs]
      rw [if_neg hu, if_neg (by simp [jsTruthy, hme])]
      repeat' split
      all_goals rfl
  · intro hm
    cases v with
    | null => exact absurd hm (by simp [getField])
    | bool b => exact absurd hm (by simp [getField])
    | num n => exact absurd hm (by simp [getField])
    | str s2 => exact absurd hm (by simp [getField])
    | arr es => exact absurd hm (by simp [getField])
    | obj kvs =>
      cases hs : getField (.obj kvs) "messages"
      · simp only [chatPOST, hm, hs]
        rw [if_neg hu]
      · simp only [chatPOST, hm, hs]
        rw [if_neg hu, if_pos (Or.inl (by simp [jsTruthy]))]

/-- **C9 witness.** -/
theorem claim9_truthiness_validation_witness :
    (chatPOST (some "http://localhost:11434")
        (some (.obj [("model", .str "llama3"), ("messages", .arr [])]))
        (.respond true 200 "" none none)).2.length = 1 ∧
      chatPOST (some "http://localhost:11434")
          (some (.obj [("model", .str ""), ("messages", .arr [])]))
          (.respond true 200 "" none none) =
        (.errorEnvelope 400 "Missing model or messages in request body.", []) :=
  ⟨(claim9_truthiness_validation "http://localhost:11434" (by decide)
      (.obj [("model", .str "llama3"), ("messages", .arr [])]) "llama3"
      (.respond true 200 "" none none)).1 rfl (by decide) rfl,
   (claim9_truthiness_validation "http://localhost:11434" (by decide)
      (.obj [("model", .str ""), ("messages", .arr [])]) "llama3"
      (.respond true 200 "" none none)).2 rfl⟩

/-- **C10.** A POST body that is not valid JSON yields status 400 with the
exact error text `Invalid JSON in request body.` and no upstream call (the
relay being configured). -/
theorem claim10_invalid_json_400 (u : String) (hu : u ≠ "") (up : UpOutcome) :
    chatPOST (some u) none up =
      (.errorEnvelope 400 "Invalid JSON in request body.", []) := by
  simp only [chatPOST]
  rw [if_neg hu]

/-- **C10 witness.** -/
theorem claim10_invalid_json_400_witness :
    chatPOST (some "http://localhost:11434") none (.reject none) =
      (.errorEnvelope 400 "Invalid JSON in request body.", []) :=
  claim10_invalid_json_400 "http://localhost:11434" (by decide) (.reject none)

/-! ## Theorems for the client stream assembler -/

/-- The freshly appended assistant placeholder satisfies the catch-handler's
removal test. -/
theorem lastIsPlaceholder_append (l : List ChatMessage) :
    lastIsPlaceholder (l ++ [⟨Role.assistant, "..."⟩]) = true := by
  simp [lastIsPlaceholder]

/-- **C7.** On empty or whitespace-only user input, `handleSubmit` leaves
the message history unchanged and performs no network call. -/
theorem claim7_blank_input_no_effect (s : ClientState) (net : ChatOutcome)
    (h : jsTrim s.userInput = "") :
    (handleSubmit s net).1.messages = s.messages ∧
      (handleSubmit s net).2 = false := by
  unfold handleSubmit
  rw [if_pos (Or.inl h)]
  exact ⟨rfl, rfl⟩

/-- **C7 witness.** -/
theorem claim7_blank_input_no_effect_witness :
    (handleSubmit ⟨[⟨Role.user, "x"⟩], "   ", "llama3", "", false⟩
        (.reject "boom")).1.messages = [⟨Role.user, "x"⟩] ∧
      (handleSubmit ⟨[⟨Role.user, "x"⟩], "   ", "llama3", "", false⟩
        (.reject "boom")).2 = false :=
  claim7_blank_input_no_effect ⟨[⟨Role.user, "x"⟩], "   ", "llama3", "", false⟩
    (.reject "boom") (by decide)

/-- **C8.** When the exchange fails after the assistant placeholder was
appended (the stream read rejects) but before any message-content fragment
arrived, the placeholder is removed: the final history is the old history
plus only the user's turn, and the error is surfaced. -/
theorem claim8_placeholder_removed (s : ClientState) (status : Nat)
    (errField : Option String) (chunks : List String) (failMsg : String)
    (h1 : jsTrim s.userInput ≠ "") (h2 : s.selectedModel ≠ "")
    (hno : ∀ l ∈ (chunks.map chunkLines).flatten, extractContent l = none) :
    (handleSubmit s
        (.respond true true status errField chunks (.failed failMsg))).1.messages
      = s.messages ++ [⟨Role.user, s.userInput⟩] ∧
    (handleSubmit s
        (.respond true true status errField chunks (.failed failMsg))).1.errorMessage
      = "Error sending message: " ++ failMsg := by
  unfold handleSubmit
  rw [if_neg (by push_neg; exact ⟨h1, h2⟩)]
  have hst : chunks.foldl processChunk
      ("", s.messages ++ [⟨Role.user, s.userInput⟩] ++ [⟨Role.assistant, "..."⟩]) =
      ("", s.messages ++ [⟨Role.user, s.userInput⟩] ++ [⟨Role.assistant, "..."⟩]) := by
    rw [foldl_processChunk_eq]
    exact foldl_processLine_none _ hno _
  simp only [if_neg (by simp : ¬(true = false ∨ true = false)), hst, applyCatch,
    lastIsPlaceholder_append, if_pos]
  rw [List.dropLast_concat]
  trivial

/-- **C8 witness.** -/
theorem claim8_placeholder_removed_witness :
    (handleSubmit ⟨[], "q", "m", "", false⟩
        (.respond true true 200 none ["garbage\n"] (.failed "read error"))).1.messages
      = [⟨Role.user, "q"⟩] ∧
    (handleSubmit ⟨[], "q", "m", "", false⟩
        (.respond true true 200 none ["garbage\n"] (.failed "read error"))).1.errorMessage
      = "Error sending message: " ++ "read error" :=
  claim8_placeholder_removed ⟨[], "q", "m", "", false⟩ 200 none ["garbage\n"]
    "read error" (by decide) (by decide) (by decide)

/-- **C6.** Inserting one malformed (non-JSON-parseable) line into the
stream leaves the whole outcome of `handleSubmit` unchanged — in
particular the assembled assistant message and the (absent) user-visible
error are the same, and the stream is not aborted. -/
theorem claim6_malformed_line_skipped (s : ClientState) (status : Nat)
    (errField : Option String) (ending : StreamEnd)
    (pre post : List String) (badChunk bad : String)
    (hb : chunkLines badChunk = [bad]) (hbad : jsonParse bad = none) :
    handleSubmit s (.respond true true status errField (pre ++ badChunk :: post) ending) =
      handleSubmit s (.respond true true status errField (pre ++ post) ending) := by
  have hex : extractContent bad = none := by
    unfold extractContent
    rw [hbad]
  have key : ∀ st : String × List ChatMessage,
      (pre ++ badChunk :: post).foldl processChunk st =
        (pre ++ post).foldl processChunk st := by
    intro st
    rw [List.foldl_append, List.foldl_append, List.foldl_cons]
    have hskip : processChunk (pre.foldl processChunk st) badChunk =
        pre.foldl processChunk st := by
      simp [processChunk, hb, processLine, hex]
    rw [hskip]
  unfold handleSubmit
  by_cases hval : jsTrim s.userInput = "" ∨ s.selectedModel = ""
  · rw [if_pos hval, if_pos hval]
  · rw [if_neg hval, if_neg hval]
    simp only [key]

/-- **C6 witness.** -/
theorem claim6_malformed_line_skipped_witness :
    chunkLines "not json\n" = ["not json"] ∧
    jsonParse "not json" = none ∧
    handleSubmit ⟨[], "q", "m", "", false⟩
        (.respond true true 200 none
          ["\x7b\"message\":\x7b\"content\":\"a\"\x7d\x7d\n", "not json\n",
            "\x7b\"message\":\x7b\"content\":\"b\"\x7d\x7d\n"] .closed) =
      handleSubmit ⟨[], "q", "m", "", false⟩
        (.respond true true 200 none
          ["\x7b\"message\":\x7b\"content\":\"a\"\x7d\x7d\n",
            "\x7b\"message\":\x7b\"content\":\"b\"\x7d\x7d\n"] .closed) :=
  ⟨by decide, rfl,
    claim6_malformed_line_skipped ⟨[], "q", "m", "", false⟩ 200 none .closed
      ["\x7b\"message\":\x7b\"content\":\"a\"\x7d\x7d\n"]
      ["\x7b\"message\":\x7b\"content\":\"b\"\x7d\x7d\n"]
      "not json\n" "not json" (by decide) rfl⟩

/-- **C1 counterexample.** A single well-formed NDJSON fragment carrying
content `"Hi"`, delivered in a chunking that splits the line across two
chunks, is lost: the displayed assistant message stays at the placeholder
`"..."` instead of `"Hi"`.  (The two chunks concatenate to exactly the
well-formed fragment line plus its newline, and that line alone carries
content `"Hi"`.) -/
theorem claim1_counterexample :
    ("\x7b\"message\":\x7b\"co" ++ "ntent\":\"Hi\"\x7d\x7d\n"
        = "\x7b\"message\":\x7b\"content\":\"Hi\"\x7d\x7d\n") ∧
    extractContent "\x7b\"message\":\x7b\"content\":\"Hi\"\x7d\x7d" = some "Hi" ∧
    (handleSubmit ⟨[], "Hello?", "llama3", "", false⟩
        (.respond true true 200 none
          ["\x7b\"message\":\x7b\"co", "ntent\":\"Hi\"\x7d\x7d\n"] .closed)).1.messages
      = [⟨Role.user, "Hello?"⟩, ⟨Role.assistant, "..."⟩] ∧
    ("..." : String) ≠ "Hi" :=
  ⟨by decide, by decide, by decide, by decide⟩

/-- **C1 (amended).** For every sequence of NDJSON fragments each carrying
message content `c1..cn` (n ≥ 1), delivered in any chunking in which no
fragment line is split across a chunk boundary (splitting each chunk on
newlines and discarding blank lines yields exactly the fragment lines, in
order), the assistant message displayed after the stream closes equals
`c1 ++ c2 ++ ... ++ cn` in arrival order. -/
theorem claim1_line_aligned_concat (s : ClientState) (status : Nat)
    (errField : Option String) (chunks : List String)
    (frags : List (String × String))
    (h1 : jsTrim s.userInput ≠ "") (h2 : s.selectedModel ≠ "")
    (hchunks : (chunks.map chunkLines).flatten = frags.map Prod.fst)
    (hex : ∀ p ∈ frags, extractContent p.1 = some p.2)
    (hne : frags ≠ []) :
    (handleSubmit s (.respond true true status errField chunks .closed)).1.messages
      = s.messages ++ [⟨Role.user, s.userInput⟩,
          ⟨Role.assistant, concatAll (frags.map Prod.snd)⟩] := by
  unfold handleSubmit
  rw [if_neg (by push_neg; exact ⟨h1, h2⟩)]
  have hst : chunks.foldl processChunk
      ("", s.messages ++ [⟨Role.user, s.userInput⟩] ++ [⟨Role.assistant, "..."⟩]) =
      ("" ++ concatAll (frags.map Prod.snd),
       s.messages ++ [⟨Role.user, s.userInput⟩] ++
         [⟨Role.assistant, "" ++ concatAll (frags.map Prod.snd)⟩]) := by
    rw [foldl_processChunk_eq, hchunks, foldl_processLine_extracts frags hex, if_neg hne]
  simp only [if_neg (by simp : ¬(true = false ∨ true = false)), hst,
    String.empty_append]
  simp

/-- **C1 witness.** Two fragments `"Hel"` and `"lo"`, each delivered as a
whole line, assemble to `"Hello"`. -/
theorem claim1_line_aligned_concat_witness :
    (handleSubmit ⟨[], "Hello?", "llama3", "", false⟩
        (.respond true true 200 none
          ["\x7b\"message\":\x7b\"content\":\"Hel\"\x7d\x7d\n",
            "\x7b\"message\":\x7b\"content\":\"lo\"\x7d\x7d\n"] .closed)).1.messages
      = [⟨Role.user, "Hello?"⟩, ⟨Role.assistant,
          concatAll ["Hel", "lo"]⟩] :=
  claim1_line_aligned_concat ⟨[], "Hello?", "llama3", "", false⟩ 200 none
    ["\x7b\"message\":\x7b\"content\":\"Hel\"\x7d\x7d\n",
      "\x7b\"message\":\x7b\"content\":\"lo\"\x7d\x7d\n"]
    [("\x7b\"message\":\x7b\"content\":\"Hel\"\x7d\x7d", "Hel"),
      ("\x7b\"message\":\x7b\"content\":\"lo\"\x7d\x7d", "lo")]
    (by decide) (by decide) (by decide) (by decide) (by decide)

end OllamaChat
